import Mathlib

/-!
Verification of the ghostly element-resolution core (`ghostly/ghostly.py`).

The Python code is a thin wrapper around a browser driver.  We shallowly embed
the parts with algorithmic content:

* the error taxonomy (`ghostly/errors.py` classes plus selenium's
  `NoSuchElementException` and Python's `AttributeError`) becomes an inductive;
* a browser element (`WebElement`) becomes a record of the observations the
  code makes of it (`tag_name`, `get_attribute`, `text`);
* the query provider (driver or element scope) becomes a record of the six
  `find_elements_by_*` functions the code calls;
* wall-clock time becomes a strictly increasing stream of clock readings, one
  reading per call of `milli_now()` / `time.time()` in program order (real
  wall-clock readings strictly increase at the granularity that makes the
  polling loops terminate);
* the changing page is a provider per polling attempt (`page : Nat → Provider`);
* `time.sleep` calls are recorded in an explicit trace;
* `random.choice` draws become an explicit stream of indices into the
  alphabet the code samples from.
-/

/-- Python `str.lower()` (the code only lowercases ASCII tag names). -/
def pyLower (s : String) : String :=
  String.mk (s.data.map Char.toLower)

/-- Python `str.startswith(pre)`: `pre` is a prefix of `s`. -/
def pyStartswith (s pre : String) : Bool :=
  pre.data.isPrefixOf s.data

/-- Python `str.replace(old, new)` on character lists: replace every
(leftmost, non-overlapping) occurrence of `pat` by `rep`.  The fuel is an
upper bound on the number of characters still to scan; the callers below
pass the list's length, which always suffices, so the fuel-exhausted branch
is never taken.  (Python's special behaviour for an empty `old` is not
reproduced; the code never passes an empty pattern.) -/
def pyReplaceAux (pat rep : List Char) : Nat → List Char → List Char
  | _, [] => []
  | 0, s => s
  | fuel + 1, c :: cs =>
    if !pat.isEmpty && pat.isPrefixOf (c :: cs) then
      rep ++ pyReplaceAux pat rep fuel ((c :: cs).drop pat.length)
    else
      c :: pyReplaceAux pat rep fuel cs

/-- Python `str.replace(old, new)`. -/
def pyReplace (s pat rep : String) : String :=
  String.mk (pyReplaceAux pat.data rep.data s.data.length s.data)

/-- Python `needle in hay` on strings: `needle` occurs as a contiguous
substring of `hay`. -/
def pyInStr (needle hay : String) : Bool :=
  go needle.data hay.data
where
  go (needle : List Char) : List Char → Bool
    | [] => needle.isEmpty
    | c :: cs => needle.isPrefixOf (c :: cs) || go needle cs

/-- Error values raised by the code: selenium's `NoSuchElementException`,
`GhostlyTimeoutError`, `GhostlyTestFailed` (from `ghostly.errors`) and
Python's built-in `AttributeError`. -/
inductive GhostlyError where
  | noSuchElement (msg : String)
  | ghostlyTimeout (msg : String)
  | ghostlyTestFailed (msg : String)
  | attributeError (msg : String)
deriving DecidableEq, Repr

/-- Discriminates the error class (Python exception type), ignoring the
message.  Two errors are "of the same kind" iff a Python `except` clause
naming one class catches both. -/
def GhostlyError.kindIndex : GhostlyError → Nat
  | .noSuchElement _ => 0
  | .ghostlyTimeout _ => 1
  | .ghostlyTestFailed _ => 2
  | .attributeError _ => 3

/-- A browser element, recorded as the observations `_get_element` and the
assertions make of a selenium `WebElement`: `tag_name`, `get_attribute`
(returns `None` or a string) and `text`. -/
structure Element where
  tag_name : String
  get_attribute : String → Option String
  text : String

/-- A selenium `WebElement` defines neither `__bool__` nor `__len__`, so as a
Python object it is always truthy. -/
def Element.pyTruthy (_ : Element) : Bool :=
  true

/-- The hidden-form-element test of `_get_element` (ghostly.py:101):
`element.tag_name.lower() == 'input' and element.get_attribute('type') == 'hidden'`. -/
def isHiddenInput (e : Element) : Bool :=
  pyLower e.tag_name == "input" && e.get_attribute "type" == some "hidden"

/-- The `for element in elements` filter loop of `_get_element`
(ghostly.py:98-103): return the first element that is not a hidden input;
if every element is a hidden input (or the list is empty) the attempt
yields nothing and the polling loop continues. -/
def firstNonHidden (elements : List Element) : Option Element :=
  elements.find? (fun e => !(isHiddenInput e))

/-- A query scope (the driver, or a parent element), recorded as the six
`find_elements_by_*` lookups `_get_element` calls on it. -/
structure Provider where
  find_elements_by_id : String → List Element
  find_elements_by_class_name : String → List Element
  find_elements_by_tag_name : String → List Element
  find_elements_by_name : String → List Element
  find_elements_by_css_selector : String → List Element
  find_elements_by_link_text : String → List Element

/-- The `for f in funcs` loop of `_get_element` (ghostly.py:90-96): `elements`
takes each strategy's result in turn and the loop breaks on the first
non-empty one; if none is non-empty, `elements` is left holding the last
(empty) result.  (The `find_elements_by_*` calls return lists and do not
raise `NoSuchElementException`, so the inner `try` never fires.) -/
def pickStrategy : List (List Element) → List Element
  | [] => []
  | [l] => l
  | l :: ls => if l.isEmpty then pickStrategy ls else l

/-- One resolution attempt of `_get_element`'s selector grammar
(ghostly.py:77-96) against a scope: leading `#` routes to
`find_elements_by_id` on `selector.replace('#', '')`, leading `.` routes to
`find_elements_by_class_name` on `selector.replace('.', '')`, anything else
tries tag name, name, id, CSS selector, link text in order, first non-empty
result winning. -/
def attemptResolve (parent : Provider) (selector : String) : List Element :=
  if pyStartswith selector "#" then
    parent.find_elements_by_id (pyReplace selector "#" "")
  else if pyStartswith selector "." then
    parent.find_elements_by_class_name (pyReplace selector "." "")
  else
    pickStrategy
      [parent.find_elements_by_tag_name selector,
       parent.find_elements_by_name selector,
       parent.find_elements_by_id selector,
       parent.find_elements_by_css_selector selector,
       parent.find_elements_by_link_text selector]

/-- Wall-clock readings in program order: `time n` is the value returned by
the n-th call of `milli_now()` / `time.time()` in the call under study.
Readings strictly increase (at the resolution at which the code observes
the clock, time moves forward between observations). -/
structure Clock where
  time : Nat → Nat
  strictMono : ∀ n, time n < time (n + 1)

/-- The not-found message of `_get_element` (ghostly.py:108). -/
def notFoundMsg (selector : String) : String :=
  "Could not find element matching " ++ selector

/-- The `while milli_now() < start + wait` polling loop of `_get_element`
(ghostly.py:72-106).  `n` is the index of the clock reading consumed by this
iteration's guard; `attempt n` is what the selector grammar yields on the
page as it stands at that iteration.  No sleep separates attempts: the loop
re-queries immediately (busy-poll). -/
def getElementLoop (c : Clock) (attempt : Nat → List Element) (deadline : Nat)
    (selector : String) (n : Nat) : Except GhostlyError Element :=
  if _h : c.time n < deadline then
    match firstNonHidden (attempt n) with
    | some e => .ok e
    | none => getElementLoop c attempt deadline selector (n + 1)
  else
    .error (.noSuchElement (notFoundMsg selector))
termination_by deadline - c.time n
decreasing_by
  have := c.strictMono n
  omega

/-- The resolver `Ghostly._get_element` (ghostly.py:54-108): `wait` seconds
are scaled to milliseconds, the start time is read once (clock reading 0, so
the deadline `start + wait*1000` is fixed for the whole call), and the loop's
guard consumes readings 1, 2, ….  `page n` is the provider as the page
stands at loop iteration n. -/
def get_element (c : Clock) (page : Nat → Provider) (selector : String)
    (wait : Nat := 10) : Except GhostlyError Element :=
  getElementLoop c (fun n => attemptResolve (page n) selector)
    (c.time 0 + wait * 1000) selector 1

/-- Clock readings increase strictly with the call index. -/
theorem Clock.time_strictMono (c : Clock) : StrictMono c.time :=
  strictMono_nat_of_lt_succ c.strictMono

/-- Concrete clock used in witnesses: one millisecond per reading. -/
def exClock : Clock :=
  ⟨fun n => n, fun n => Nat.lt_succ_self n⟩

/-- Concrete provider used in witnesses: every lookup comes back empty. -/
def emptyProvider : Provider :=
  ⟨fun _ => [], fun _ => [], fun _ => [], fun _ => [], fun _ => [], fun _ => []⟩

/-- If no attempt made strictly before the deadline yields a qualifying
element, the loop raises the not-found error; attempts at or past the
deadline are irrelevant. -/
theorem getElementLoop_error (c : Clock) (attempt : Nat → List Element)
    (deadline : Nat) (selector : String) (n : Nat)
    (hnone : ∀ m, n ≤ m → c.time m < deadline → firstNonHidden (attempt m) = none) :
    getElementLoop c attempt deadline selector n =
      .error (.noSuchElement (notFoundMsg selector)) := by
  unfold getElementLoop
  split
  · rw [hnone n le_rfl (by assumption)]
    exact getElementLoop_error c attempt deadline selector (n + 1)
      (fun m hm h2 => hnone m (by omega) h2)
  · rfl
termination_by deadline - c.time n
decreasing_by
  have := c.strictMono n
  omega

/-- If attempt `n0` is the first (from `n` on) to yield a qualifying element
and its clock reading is before the deadline, the loop returns that element. -/
theorem getElementLoop_ok (c : Clock) (attempt : Nat → List Element)
    (deadline : Nat) (selector : String) (n n0 : Nat) (e : Element)
    (hle : n ≤ n0) (hlt : c.time n0 < deadline)
    (hbefore : ∀ m, n ≤ m → m < n0 → firstNonHidden (attempt m) = none)
    (hfound : firstNonHidden (attempt n0) = some e) :
    getElementLoop c attempt deadline selector n = .ok e := by
  unfold getElementLoop
  rcases eq_or_lt_of_le hle with rfl | hlt2
  · rw [dif_pos hlt, hfound]
  · have hn : c.time n < deadline := lt_trans (c.time_strictMono hlt2) hlt
    rw [dif_pos hn, hbefore n le_rfl hlt2]
    exact getElementLoop_ok c attempt deadline selector (n + 1) n0 e hlt2 hlt
      (fun m hm h2 => hbefore m (by omega) h2) hfound
termination_by n0 - n

/-- The loop's outcome depends only on the attempts whose clock reading is
before the deadline. -/
theorem getElementLoop_congr (c : Clock) (a1 a2 : Nat → List Element)
    (deadline : Nat) (selector : String) (n : Nat)
    (hagree : ∀ m, c.time m < deadline → a1 m = a2 m) :
    getElementLoop c a1 deadline selector n =
      getElementLoop c a2 deadline selector n := by
  unfold getElementLoop
  split
  · rw [hagree n (by assumption)]
    cases hfn : firstNonHidden (a2 n) with
    | some e => rfl
    | none =>
        simp only []
        exact getElementLoop_congr c a1 a2 deadline selector (n + 1) hagree
  · rfl
termination_by deadline - c.time n
decreasing_by
  have := c.strictMono n
  omega

/-- C1: `_get_element` fixes one deadline, `start + wait*1000`, from the
clock reading taken at call start; it busy-polls the selector grammar with
no inter-attempt sleep (the loop consumes consecutive clock readings with
nothing between them); the first pre-deadline attempt that yields a
qualifying (non-hidden) element is returned immediately; if no pre-deadline
attempt qualifies it raises the not-found error carrying the original
selector string; and the outcome never depends on the page past the
deadline (it never continues polling once the deadline has passed). -/
theorem c1_get_element_polling (c : Clock) (page : Nat → Provider)
    (selector : String) (wait : Nat) :
    ((∀ n, 1 ≤ n → c.time n < c.time 0 + wait * 1000 →
        firstNonHidden (attemptResolve (page n) selector) = none) →
      get_element c page selector wait =
        .error (.noSuchElement (notFoundMsg selector))) ∧
    (∀ n e, 1 ≤ n → c.time n < c.time 0 + wait * 1000 →
      (∀ m, 1 ≤ m → m < n →
        firstNonHidden (attemptResolve (page m) selector) = none) →
      firstNonHidden (attemptResolve (page n) selector) = some e →
      get_element c page selector wait = .ok e) ∧
    (∀ page2 : Nat → Provider,
      (∀ n, c.time n < c.time 0 + wait * 1000 → page n = page2 n) →
      get_element c page selector wait = get_element c page2 selector wait) := by
  refine ⟨fun hnone => ?_, fun n e hn hlt hbefore hfound => ?_, fun page2 hagree => ?_⟩
  · exact getElementLoop_error c _ _ selector 1 (fun m hm h2 => hnone m hm h2)
  · exact getElementLoop_ok c _ _ selector 1 n e hn hlt
      (fun m hm h2 => hbefore m hm h2) hfound
  · exact getElementLoop_congr c _ _ _ selector 1
      (fun m hm => by rw [hagree m hm])

/-- Witness for C1: with a page that never matches and a zero timeout, the
resolver fails with the not-found error carrying the selector. -/
theorem c1_get_element_polling_witness :
    get_element exClock (fun _ => emptyProvider) "#login" 0 =
      .error (.noSuchElement (notFoundMsg "#login")) :=
  (c1_get_element_polling exClock (fun _ => emptyProvider) "#login" 0).1
    (fun n _ hlt => absurd hlt (by simp [exClock]))

/-- C2: for a selector with neither a leading `#` nor a leading `.`, the
fallback chain tries tag name, name, id, CSS selector, link text in exactly
that order against the scope; the first strategy with a non-empty result
wins and later ones are not consulted (if the first four are empty the
result is whatever link-text lookup returns, empty or not); a selector with
a leading `#` (resp. a leading `.` and no leading `#`) is answered purely by
the id (resp. class) branch and never reaches the fallback chain. -/
theorem c2_fallback_chain (p : Provider) (selector : String) :
    (pyStartswith selector "#" = false → pyStartswith selector "." = false →
      ((p.find_elements_by_tag_name selector ≠ [] →
          attemptResolve p selector = p.find_elements_by_tag_name selector) ∧
        (p.find_elements_by_tag_name selector = [] →
          p.find_elements_by_name selector ≠ [] →
          attemptResolve p selector = p.find_elements_by_name selector) ∧
        (p.find_elements_by_tag_name selector = [] →
          p.find_elements_by_name selector = [] →
          p.find_elements_by_id selector ≠ [] →
          attemptResolve p selector = p.find_elements_by_id selector) ∧
        (p.find_elements_by_tag_name selector = [] →
          p.find_elements_by_name selector = [] →
          p.find_elements_by_id selector = [] →
          p.find_elements_by_css_selector selector ≠ [] →
          attemptResolve p selector = p.find_elements_by_css_selector selector) ∧
        (p.find_elements_by_tag_name selector = [] →
          p.find_elements_by_name selector = [] →
          p.find_elements_by_id selector = [] →
          p.find_elements_by_css_selector selector = [] →
          attemptResolve p selector = p.find_elements_by_link_text selector))) ∧
    (pyStartswith selector "#" = true →
      attemptResolve p selector =
        p.find_elements_by_id (pyReplace selector "#" "")) ∧
    (pyStartswith selector "#" = false → pyStartswith selector "." = true →
      attemptResolve p selector =
        p.find_elements_by_class_name (pyReplace selector "." "")) := by
  refine ⟨fun h1 h2 => ?_, fun h1 => ?_, fun h1 h2 => ?_⟩
  · simp only [attemptResolve, h1, h2, Bool.false_eq_true, if_false]
    refine ⟨fun ht => ?_, fun ht hn => ?_, fun ht hn hi => ?_,
      fun ht hn hi hc => ?_, fun ht hn hi hc => ?_⟩
    · simp [pickStrategy, List.isEmpty_iff, ht]
    · simp [pickStrategy, List.isEmpty_iff, ht, hn]
    · simp [pickStrategy, List.isEmpty_iff, ht, hn, hi]
    · simp [pickStrategy, List.isEmpty_iff, ht, hn, hi, hc]
    · simp [pickStrategy, List.isEmpty_iff, ht, hn, hi, hc]
  · simp [attemptResolve, h1]
  · simp [attemptResolve, h1, h2]

/-- Witness for C2: a scope whose name lookup (but not tag lookup) matches
is answered by the name strategy; `#x` and `.x` go to the id and class
branches. -/
theorem c2_fallback_chain_witness :
    attemptResolve
        { emptyProvider with
          find_elements_by_name := fun _ => [⟨"input", fun _ => none, ""⟩] }
        "login" = [⟨"input", fun _ => none, ""⟩] ∧
      attemptResolve emptyProvider "#x" = emptyProvider.find_elements_by_id "x" ∧
      attemptResolve emptyProvider ".x" =
        emptyProvider.find_elements_by_class_name "x" := by
  refine ⟨?_, ?_, ?_⟩
  · exact (c2_fallback_chain
        { emptyProvider with
          find_elements_by_name := fun _ => [⟨"input", fun _ => none, ""⟩] }
        "login").1 (by decide) (by decide) |>.2.1 rfl (by simp [emptyProvider])
  · have := (c2_fallback_chain emptyProvider "#x").2.1 (by decide)
    simpa using this
  · have := (c2_fallback_chain emptyProvider ".x").2.2 (by decide) (by decide)
    simpa using this

/-- Concrete hidden form input used in witnesses. -/
def hiddenEl : Element :=
  ⟨"input", fun a => if a = "type" then some "hidden" else none, ""⟩

/-- C3: the filter pass returns the first matched element, in the provider's
order, that is not an input of type hidden (everything before it being such
a hidden input); if every matched element is a hidden input the pass yields
nothing; consequently a page on which every attempt matches only hidden
inputs makes `_get_element` fail with the not-found error once the deadline
passes. -/
theorem c3_hidden_filter (c : Clock) (page : Nat → Provider)
    (selector : String) (wait : Nat) :
    (∀ l1 l2 : List Element, ∀ e : Element,
      (∀ x ∈ l1, isHiddenInput x = true) → isHiddenInput e = false →
      firstNonHidden (l1 ++ e :: l2) = some e) ∧
    (∀ l : List Element, (∀ x ∈ l, isHiddenInput x = true) →
      firstNonHidden l = none) ∧
    ((∀ n, 1 ≤ n → ∀ x ∈ attemptResolve (page n) selector,
        isHiddenInput x = true) →
      get_element c page selector wait =
        .error (.noSuchElement (notFoundMsg selector))) := by
  have hnone : ∀ l : List Element, (∀ x ∈ l, isHiddenInput x = true) →
      firstNonHidden l = none := by
    intro l hl
    simp only [firstNonHidden, List.find?_eq_none]
    intro x hx
    simp [hl x hx]
  refine ⟨fun l1 l2 e h1 he => ?_, hnone, fun hall => ?_⟩
  · induction l1 with
    | nil => simp [firstNonHidden, List.find?_cons, he]
    | cons a as ih =>
        have ha : isHiddenInput a = true := h1 a (by simp)
        simpa [firstNonHidden, List.find?_cons, ha] using
          ih (fun x hx => h1 x (by simp [hx]))
  · exact getElementLoop_error c _ _ selector 1
      (fun m hm _ => hnone _ (hall m hm))

/-- Witness for C3: a scope whose tag lookup matches only a hidden input
fails with not-found. -/
theorem c3_hidden_filter_witness :
    get_element exClock
        (fun _ => { emptyProvider with
          find_elements_by_tag_name := fun _ => [hiddenEl] })
        "input" 0 =
      .error (.noSuchElement (notFoundMsg "input")) := by
  refine (c3_hidden_filter exClock _ "input" 0).2.2 ?_
  intro n _ x hx
  have : x = hiddenEl := by
    simpa [attemptResolve, pyStartswith, pickStrategy, emptyProvider] using hx
  subst this
  decide

/-- Concrete element used in the C4 counterexample, registered under the
identifier "ab". -/
def abEl : Element :=
  ⟨"div", fun a => if a = "id" then some "ab" else none, ""⟩

/-- Provider for the C4 counterexample: exactly one element, whose
identifier attribute is "ab"; no element has identifier "a#b". -/
def c4Provider : Provider :=
  { emptyProvider with
    find_elements_by_id := fun s => if s = "ab" then [abEl] else [] }

/-- Counterexample to C4 as stated: for the selector `#a#b` the code calls
`selector.replace('#', '')`, which removes every `#`, not just the leading
one; so the lookup is performed with id "ab", not "a#b": the resolution
attempt matches the element registered under "ab" even though no element
has identifier "a#b". -/
theorem c4_counterexample :
    attemptResolve c4Provider "#a#b" = [abEl] ∧
      c4Provider.find_elements_by_id "a#b" = [] ∧
      pyReplace "#a#b" "#" "" = "ab" := by
  refine ⟨?_, by simp [c4Provider], by decide⟩
  show attemptResolve c4Provider "#a#b" = [abEl]
  have h : pyStartswith "#a#b" "#" = true := by decide
  have h2 : pyReplace "#a#b" "#" "" = "ab" := by decide
  simp [attemptResolve, h, h2, c4Provider]

/-- C4 amended: for every selector beginning with `#`, the resolver performs
the identifier-attribute lookup using the selector with every `#` character
removed (which coincides with stripping the leading `#` whenever the id
itself contains no `#`), and no other grammar branch is consulted: the
outcome depends only on the scope's id lookup. -/
theorem c4_amended_hash_branch (p q : Provider) (selector : String)
    (h : pyStartswith selector "#" = true) :
    attemptResolve p selector =
        p.find_elements_by_id (pyReplace selector "#" "") ∧
      (p.find_elements_by_id = q.find_elements_by_id →
        attemptResolve p selector = attemptResolve q selector) := by
  constructor
  · simp [attemptResolve, h]
  · intro hpq
    simp [attemptResolve, h, hpq]

/-- Witness for the amended C4: `#a#b` resolves through the id lookup with
key "ab", and swapping out every non-id lookup strategy changes nothing. -/
theorem c4_amended_hash_branch_witness :
    attemptResolve c4Provider "#a#b" =
        c4Provider.find_elements_by_id (pyReplace "#a#b" "#" "") ∧
      attemptResolve c4Provider "#a#b" =
        attemptResolve
          { c4Provider with find_elements_by_link_text := fun _ => [abEl] }
          "#a#b" :=
  ⟨(c4_amended_hash_branch c4Provider c4Provider "#a#b" (by decide)).1,
   (c4_amended_hash_branch c4Provider
      { c4Provider with find_elements_by_link_text := fun _ => [abEl] }
      "#a#b" (by decide)).2 rfl⟩

/-- Outcome of `xpath_wait`: the returned element or raised error, together
with the trace of `self.wait(sleep)` calls performed (each entry one sleep
duration, in seconds). -/
structure WaitOutcome where
  result : Except GhostlyError Element
  sleeps : List ℚ

/-- The phase-1 timeout message of `xpath_wait` (ghostly.py:180-183). -/
def phase1TimeoutMsg (xpath : String) (timeout attempts : Nat) : String :=
  "Could not select xpath '" ++ xpath ++ "' within " ++ toString timeout ++
    " seconds - attempted " ++ toString attempts ++ " times."

/-- The phase-2 timeout message of `xpath_wait` (ghostly.py:197-200). -/
def phase2TimeoutMsg (xpath : String) (timeout attempts : Nat) : String :=
  "Element selected via xpath '" ++ xpath ++
    "' but is not yet visible within " ++ toString timeout ++
    " seconds - attempted " ++ toString attempts ++ " times." 

/-- Phase 2 of `xpath_wait` (ghostly.py:189-200): with the element in hand,
`while time.time() < stop` poll `element.is_displayed()`, sleeping `sleep`
seconds after each failed check; when the guard fails the `while`/`else`
raises `GhostlyTimeoutError` with the visibility message.  `displayed j` is
the element's visibility at the check made when the attempt counter reads
`j`; `k` indexes the clock reading the guard consumes; `acc` is the sleep
trace so far. -/
def xpathWaitVisibleLoop (c : Clock) (displayed : Nat → Bool) (stop : Nat)
    (xpath : String) (timeout : Nat) (sleep : ℚ) (e : Element)
    (attempts k : Nat) (acc : List ℚ) : WaitOutcome :=
  if _h : c.time k < stop then
    if displayed (attempts + 1) then ⟨.ok e, acc⟩
    else
      xpathWaitVisibleLoop c displayed stop xpath timeout sleep e
        (attempts + 1) (k + 1) (acc ++ [sleep])
  else
    ⟨.error (.ghostlyTimeout (phase2TimeoutMsg xpath timeout attempts)), acc⟩
termination_by stop - c.time k
decreasing_by
  have := c.strictMono k
  omega

/-- Phase 1 of `xpath_wait` (ghostly.py:169-186): `while time.time() < stop`
attempt `self.xpath(xpath)`; on `NoSuchElementException` sleep `sleep`
seconds and retry; on success break — then return the element as-is if
`visible` is false, else enter phase 2 with the same `stop`; when the guard
fails the `while`/`else` raises `GhostlyTimeoutError` with the phase-1
message.  `found i` is the result of the i-th `self.xpath` call (`none`
standing for `NoSuchElementException`). -/
def xpathWaitFindLoop (c : Clock) (found : Nat → Option Element)
    (displayed : Nat → Bool) (stop : Nat) (xpath : String) (timeout : Nat)
    (sleep : ℚ) (visible : Bool) (attempts k : Nat) (acc : List ℚ) :
    WaitOutcome :=
  if _h : c.time k < stop then
    match found (attempts + 1) with
    | some e =>
        if visible then
          xpathWaitVisibleLoop c displayed stop xpath timeout sleep e
            (attempts + 1) (k + 1) acc
        else ⟨.ok e, acc⟩
    | none =>
        xpathWaitFindLoop c found displayed stop xpath timeout sleep visible
          (attempts + 1) (k + 1) (acc ++ [sleep])
  else
    ⟨.error (.ghostlyTimeout (phase1TimeoutMsg xpath timeout attempts)), acc⟩
termination_by stop - c.time k
decreasing_by
  have := c.strictMono k
  omega

/-- The two-phase wait `Ghostly.xpath_wait` (ghostly.py:154-200).  Clock
readings are in (whole) seconds: reading 0 is `start = current = time.time()`
and readings 1, 2, … are the loop guards of both phases in program order;
`stop = start + timeout` is computed once, before any polling, and shared by
both phases.  Defaults mirror the source: `visible=True`, `timeout=5`
seconds, `sleep=0.25` seconds (250 ms). -/
def xpath_wait (c : Clock) (found : Nat → Option Element)
    (displayed : Nat → Bool) (xpath : String) (visible : Bool := true)
    (timeout : Nat := 5) (sleep : ℚ := 1/4) : WaitOutcome :=
  xpathWaitFindLoop c found displayed (c.time 0 + timeout) xpath timeout
    sleep visible 0 1 []

/-- If the first `j` xpath attempts fail (each followed by one sleep) and
attempt `j+1` succeeds, all under the deadline, phase 1 returns that
element; with `visible := false` it is returned as-is. -/
theorem findLoop_ok_invisible (c : Clock) (found : Nat → Option Element)
    (displayed : Nat → Bool) (stop : Nat) (xpath : String) (timeout : Nat)
    (sleep : ℚ) (j : Nat) (attempts k : Nat) (acc : List ℚ) (e : Element)
    (hfail : ∀ i, i < j → found (attempts + 1 + i) = none)
    (hfound : found (attempts + 1 + j) = some e)
    (hguard : ∀ i, i ≤ j → c.time (k + i) < stop) :
    xpathWaitFindLoop c found displayed stop xpath timeout sleep false
        attempts k acc = ⟨.ok e, acc ++ List.replicate j sleep⟩ := by
  induction j generalizing attempts k acc with
  | zero =>
      unfold xpathWaitFindLoop
      rw [dif_pos (by simpa using hguard 0 le_rfl)]
      simp only [Nat.add_zero] at hfound
      rw [hfound]
      simp
  | succ j ih =>
      unfold xpathWaitFindLoop
      rw [dif_pos (by simpa using hguard 0 (Nat.zero_le _))]
      have h0 : found (attempts + 1) = none := by
        simpa using hfail 0 (Nat.succ_pos j)
      rw [h0]
      have := ih (attempts + 1) (k + 1) (acc ++ [sleep])
        (fun i hi => by
          have := hfail (i + 1) (by omega)
          simpa [Nat.add_assoc, Nat.add_comm, Nat.add_left_comm] using this)
        (by
          have := hfound
          simpa [Nat.add_assoc, Nat.add_comm, Nat.add_left_comm] using this)
        (fun i hi => by
          have := hguard (i + 1) (by omega)
          simpa [Nat.add_assoc, Nat.add_comm, Nat.add_left_comm] using this)
      rw [this]
      simp [List.replicate_succ]

/-- If the visibility check fails `j` times (each followed by one sleep) and
the next guard reading is at or past the deadline, phase 2 raises the
visibility timeout, reporting the accumulated attempt count. -/
theorem visibleLoop_error (c : Clock) (displayed : Nat → Bool) (stop : Nat)
    (xpath : String) (timeout : Nat) (sleep : ℚ) (e : Element) (j : Nat)
    (attempts k : Nat) (acc : List ℚ)
    (hdisp : ∀ i, i < j → displayed (attempts + 1 + i) = false)
    (hguard : ∀ i, i < j → c.time (k + i) < stop)
    (hstop : ¬ c.time (k + j) < stop) :
    xpathWaitVisibleLoop c displayed stop xpath timeout sleep e attempts k acc =
      ⟨.error (.ghostlyTimeout (phase2TimeoutMsg xpath timeout (attempts + j))),
        acc ++ List.replicate j sleep⟩ := by
  induction j generalizing attempts k acc with
  | zero =>
      unfold xpathWaitVisibleLoop
      rw [dif_neg (by simpa using hstop)]
      simp
  | succ j ih =>
      unfold xpathWaitVisibleLoop
      rw [dif_pos (by simpa using hguard 0 (Nat.succ_pos j))]
      have h0 : displayed (attempts + 1) = false := by
        simpa using hdisp 0 (Nat.succ_pos j)
      rw [h0]
      simp only [Bool.false_eq_true, if_false]
      have := ih (attempts + 1) (k + 1) (acc ++ [sleep])
        (fun i hi => by
          have := hdisp (i + 1) (by omega)
          simpa [Nat.add_assoc, Nat.add_comm, Nat.add_left_comm] using this)
        (fun i hi => by
          have := hguard (i + 1) (by omega)
          simpa [Nat.add_assoc, Nat.add_comm, Nat.add_left_comm] using this)
        (by
          have := hstop
          simpa [Nat.add_assoc, Nat.add_comm, Nat.add_left_comm] using this)
      rw [this]
      have harr : attempts + 1 + j = attempts + (j + 1) := by omega
      rw [harr]
      simp [List.replicate_succ]

/-- If every xpath attempt in phase 1 fails until the guard reading reaches
the deadline, phase 1 raises the existence timeout, reporting the attempt
count; this holds whether or not visibility was requested. -/
theorem findLoop_error (c : Clock) (found : Nat → Option Element)
    (displayed : Nat → Bool) (stop : Nat) (xpath : String) (timeout : Nat)
    (sleep : ℚ) (visible : Bool) (j : Nat) (attempts k : Nat) (acc : List ℚ)
    (hfail : ∀ i, i < j → found (attempts + 1 + i) = none)
    (hguard : ∀ i, i < j → c.time (k + i) < stop)
    (hstop : ¬ c.time (k + j) < stop) :
    xpathWaitFindLoop c found displayed stop xpath timeout sleep visible
        attempts k acc =
      ⟨.error (.ghostlyTimeout (phase1TimeoutMsg xpath timeout (attempts + j))),
        acc ++ List.replicate j sleep⟩ := by
  induction j generalizing attempts k acc with
  | zero =>
      unfold xpathWaitFindLoop
      rw [dif_neg (by simpa using hstop)]
      simp
  | succ j ih =>
      unfold xpathWaitFindLoop
      rw [dif_pos (by simpa using hguard 0 (Nat.succ_pos j))]
      have h0 : found (attempts + 1) = none := by
        simpa using hfail 0 (Nat.succ_pos j)
      rw [h0]
      have := ih (attempts + 1) (k + 1) (acc ++ [sleep])
        (fun i hi => by
          have := hfail (i + 1) (by omega)
          simpa [Nat.add_assoc, Nat.add_comm, Nat.add_left_comm] using this)
        (fun i hi => by
          have := hguard (i + 1) (by omega)
          simpa [Nat.add_assoc, Nat.add_comm, Nat.add_left_comm] using this)
        (by
          have := hstop
          simpa [Nat.add_assoc, Nat.add_comm, Nat.add_left_comm] using this)
      rw [this]
      have harr : attempts + 1 + j = attempts + (j + 1) := by omega
      rw [harr]
      simp [List.replicate_succ]

/-- With `visible := false` the loop never consults the visibility oracle. -/
theorem findLoop_invisible_congr (c : Clock) (found : Nat → Option Element)
    (d1 d2 : Nat → Bool) (stop : Nat) (xpath : String) (timeout : Nat)
    (sleep : ℚ) (attempts k : Nat) (acc : List ℚ) :
    xpathWaitFindLoop c found d1 stop xpath timeout sleep false attempts k acc =
      xpathWaitFindLoop c found d2 stop xpath timeout sleep false
        attempts k acc := by
  unfold xpathWaitFindLoop
  split
  · cases hf : found (attempts + 1) with
    | some e => rfl
    | none =>
        simp only []
        exact findLoop_invisible_congr c found d1 d2 stop xpath timeout sleep
          (attempts + 1) (k + 1) (acc ++ [sleep])
  · rfl
termination_by stop - c.time k
decreasing_by
  have := c.strictMono k
  omega

/-- C5: both phases of `xpath_wait` are bounded by the single deadline
`start + timeout` fixed at call start — in particular, if the element is
found on the first attempt but the next guard reading already reaches that
deadline, phase 2 times out at once, whatever the visibility oracle says
(the deadline is not reset between phases); phase 1 polls for existence
sleeping the `sleep` interval after each failed attempt and, when
`visible := false`, the element found by phase 1 is returned as-is
(phase 2 skipped, exactly the phase-1 sleeps performed) and the visibility
oracle is never consulted. -/
theorem c5_xpath_wait_two_phases (c : Clock) (found : Nat → Option Element)
    (displayed : Nat → Bool) (xpath : String) (timeout : Nat) (sleep : ℚ) :
    (∀ e, found 1 = some e → c.time 1 < c.time 0 + timeout →
      ¬ c.time 2 < c.time 0 + timeout →
      xpath_wait c found displayed xpath true timeout sleep =
        ⟨.error (.ghostlyTimeout (phase2TimeoutMsg xpath timeout 1)), []⟩) ∧
    (∀ j e, (∀ i, 1 ≤ i → i ≤ j → found i = none) → found (j + 1) = some e →
      (∀ m, 1 ≤ m → m ≤ j + 1 → c.time m < c.time 0 + timeout) →
      xpath_wait c found displayed xpath false timeout sleep =
        ⟨.ok e, List.replicate j sleep⟩) ∧
    (∀ displayed2 : Nat → Bool,
      xpath_wait c found displayed xpath false timeout sleep =
        xpath_wait c found displayed2 xpath false timeout sleep) := by
  refine ⟨fun e hf h1 h2 => ?_, fun j e hfail hfound hguard => ?_,
    fun displayed2 => ?_⟩
  · unfold xpath_wait
    unfold xpathWaitFindLoop
    rw [dif_pos h1, hf]
    simp only [if_true]
    have := visibleLoop_error c displayed (c.time 0 + timeout) xpath timeout
      sleep e 0 1 2 [] (fun i hi => absurd hi (by omega))
      (fun i hi => absurd hi (by omega)) (by simpa using h2)
    simpa using this
  · have := findLoop_ok_invisible c found displayed (c.time 0 + timeout)
      xpath timeout sleep j 0 1 [] e
      (fun i hi => by simpa [Nat.add_comm] using hfail (i + 1) (by omega) (by omega))
      (by simpa [Nat.add_comm] using hfound)
      (fun i hi => by simpa [Nat.add_comm] using hguard (i + 1) (by omega) (by omega))
    simpa [xpath_wait] using this
  · exact findLoop_invisible_congr c found displayed displayed2
      (c.time 0 + timeout) xpath timeout sleep 0 1 []

/-- Witness for C5: first attempt fails, second finds the element; with
visibility not required the element is returned after exactly one sleep of
the given interval. -/
theorem c5_xpath_wait_two_phases_witness :
    xpath_wait exClock (fun i => if i = 2 then some abEl else none)
        (fun _ => false) "//a" false 5 (1/4) =
      ⟨.ok abEl, List.replicate 1 (1/4)⟩ :=
  (c5_xpath_wait_two_phases exClock (fun i => if i = 2 then some abEl else none)
      (fun _ => false) "//a" 5 (1/4)).2.1 1 abEl
    (fun i h1 h2 => by
      have : i = 1 := by omega
      subst this
      rfl)
    rfl
    (fun m h1 h2 => by simp [exClock]; omega)

/-- The phase-1 and phase-2 timeout messages always differ (they start with
different words), whatever the xpath, timeout and attempt count. -/
theorem phase1Msg_ne_phase2Msg (xp1 : String) (t1 a1 : Nat) (xp2 : String)
    (t2 a2 : Nat) : phase1TimeoutMsg xp1 t1 a1 ≠ phase2TimeoutMsg xp2 t2 a2 := by
  intro h
  have h2 := congrArg (fun s => s.data.head?) h
  simp only [phase1TimeoutMsg, phase2TimeoutMsg, String.data_append] at h2
  simp [List.head?_append] at h2

/-- Counterexample to C6 as stated: a run in which the element is never
found and a run in which it is found at once but never becomes visible both
fail with an error of the same kind (`GhostlyTimeoutError`); only the
message texts differ, so no distinct error kind separates the two
failures. -/
theorem c6_distinct_kinds_counterexample :
    (xpath_wait exClock (fun _ => none) (fun _ => false) "//a" true 1
        (1/4)).result =
      .error (.ghostlyTimeout (phase1TimeoutMsg "//a" 1 0)) ∧
    (xpath_wait exClock (fun i => if i = 1 then some abEl else none)
        (fun _ => false) "//a" true 2 (1/4)).result =
      .error (.ghostlyTimeout (phase2TimeoutMsg "//a" 2 1)) ∧
    GhostlyError.kindIndex (.ghostlyTimeout (phase1TimeoutMsg "//a" 1 0)) =
      GhostlyError.kindIndex (.ghostlyTimeout (phase2TimeoutMsg "//a" 2 1)) := by
  refine ⟨?_, ?_, rfl⟩
  · have := findLoop_error exClock (fun _ => none) (fun _ => false)
      (exClock.time 0 + 1) "//a" 1 (1/4) true 0 0 1 []
      (fun i hi => rfl) (fun i hi => absurd hi (by omega))
      (by simp [exClock])
    simpa [xpath_wait] using congrArg WaitOutcome.result this
  · unfold xpath_wait
    unfold xpathWaitFindLoop
    rw [dif_pos (by simp [exClock])]
    norm_num
    have := visibleLoop_error exClock (fun _ => false) (exClock.time 0 + 2)
      "//a" 2 (1/4) abEl 0 1 2 [] (fun i hi => absurd hi (by omega))
      (fun i hi => absurd hi (by omega)) (by simp [exClock])
    simpa using congrArg WaitOutcome.result this

/-- C6 amended: both failure modes of `xpath_wait` raise the same error
kind, `GhostlyTimeoutError`; the never-found failure carries the phase-1
message and the found-but-never-visible failure the phase-2 message, each
embedding the attempt count and the configured timeout in seconds (not a
measured elapsed time), and the two message texts always differ, so callers
can distinguish the failures only by message, not by error kind. -/
theorem c6_amended_timeout_taxonomy (c : Clock) (found : Nat → Option Element)
    (displayed : Nat → Bool) (xpath : String) (visible : Bool) (timeout : Nat)
    (sleep : ℚ) :
    (∀ a, (∀ i, 1 ≤ i → i ≤ a → found i = none) →
      (∀ m, 1 ≤ m → m ≤ a → c.time m < c.time 0 + timeout) →
      ¬ c.time (a + 1) < c.time 0 + timeout →
      (xpath_wait c found displayed xpath visible timeout sleep).result =
        .error (.ghostlyTimeout (phase1TimeoutMsg xpath timeout a))) ∧
    (∀ a e, 1 ≤ a → found 1 = some e → (∀ i, displayed i = false) →
      (∀ m, 1 ≤ m → m ≤ a → c.time m < c.time 0 + timeout) →
      ¬ c.time (a + 1) < c.time 0 + timeout →
      (xpath_wait c found displayed xpath true timeout sleep).result =
        .error (.ghostlyTimeout (phase2TimeoutMsg xpath timeout a))) ∧
    (∀ (xp1 : String) (t1 a1 : Nat) (xp2 : String) (t2 a2 : Nat),
      GhostlyError.kindIndex (.ghostlyTimeout (phase1TimeoutMsg xp1 t1 a1)) =
        GhostlyError.kindIndex (.ghostlyTimeout (phase2TimeoutMsg xp2 t2 a2)) ∧
      phase1TimeoutMsg xp1 t1 a1 ≠ phase2TimeoutMsg xp2 t2 a2) := by
  refine ⟨fun a hf hm hs => ?_, fun a e ha hf hd hm hs => ?_,
    fun xp1 t1 a1 xp2 t2 a2 => ⟨rfl, phase1Msg_ne_phase2Msg xp1 t1 a1 xp2 t2 a2⟩⟩
  · have := findLoop_error c found displayed (c.time 0 + timeout) xpath
      timeout sleep visible a 0 1 []
      (fun i hi => by
        simpa [Nat.add_comm] using hf (i + 1) (by omega) (by omega))
      (fun i hi => by
        simpa [Nat.add_comm] using hm (i + 1) (by omega) (by omega))
      (by
        have h' : 1 + a = a + 1 := by omega
        rw [h']
        exact hs)
    simpa [xpath_wait] using congrArg WaitOutcome.result this
  · unfold xpath_wait
    unfold xpathWaitFindLoop
    rw [dif_pos (hm 1 le_rfl ha), hf]
    simp only [if_true]
    have := visibleLoop_error c displayed (c.time 0 + timeout) xpath timeout
      sleep e (a - 1) 1 2 [] (fun i hi => hd _)
      (fun i hi => by
        have := hm (i + 2) (by omega) (by omega)
        simpa [Nat.add_comm] using this)
      (by
        have h' : 2 + (a - 1) = a + 1 := by omega
        rw [h']
        exact hs)
    have harr : 1 + (a - 1) = a := by omega
    rw [harr] at this
    simpa using congrArg WaitOutcome.result this

/-- Witness for the amended C6: with an immediately expired deadline the
never-found run raises the phase-1 `GhostlyTimeoutError` with the attempt
count and the timeout in the message. -/
theorem c6_amended_timeout_taxonomy_witness :
    (xpath_wait exClock (fun _ => none) (fun _ => true) "//b" true 1
        (1/4)).result =
      .error (.ghostlyTimeout (phase1TimeoutMsg "//b" 1 0)) :=
  (c6_amended_timeout_taxonomy exClock (fun _ => none) (fun _ => true) "//b"
      true 1 (1/4)).1 0 (fun i h1 h2 => absurd (le_trans h1 h2) (by omega))
    (fun m h1 h2 => absurd (le_trans h1 h2) (by omega))
    (by simp [exClock])

/-- The alphabet `string.letters + string.digits` (Python 2, C locale) from
which `fill` draws its token characters (ghostly.py:230). -/
def lettersAndDigits : List Char :=
  "abcdefghijklmnopqrstuvwxyzABCDEFGHIJKLMNOPQRSTUVWXYZ0123456789".data

/-- The token `r = ''.join(random.choice(string.letters + string.digits)
for _ in range(12))` (ghostly.py:230): twelve draws from the alphabet,
`rand i` being the index drawn by the i-th call of `random.choice`. -/
def randomToken (rand : Nat → Fin lettersAndDigits.length) : String :=
  String.mk ((List.range 12).map (fun i => lettersAndDigits.get (rand i)))

/-- The nested `for c in contents / for k, v in c.items()` loops of `fill`
(ghostly.py:232-236) over the concatenated pairs: substitute the token for
`<random>` in the value, resolve the field within the form scope (`getE`),
send the substituted value as keystrokes.  Returns the keystroke trace
(field element, string sent) in iteration order; a resolution failure
propagates as the raised exception. -/
def fillFields (getE : String → Except GhostlyError Element) (r : String) :
    List (String × String) → Except GhostlyError (List (Element × String))
  | [] => .ok []
  | (k, v) :: rest => do
    let v2 := pyReplace v "<random>" r
    let el ← getE k
    let tail ← fillFields getE r rest
    .ok ((el, v2) :: tail)

/-- `Ghostly.fill` (ghostly.py:221-237): generate the random token once per
call, resolve the form by `selector` at top level (`getForm`), then fill
every field of every dict in `contents` (each dict a list of key/value
pairs in its iteration order), resolving fields within the form scope
(`getField`).  Returns the form and the keystroke trace. -/
def fill (getForm : String → Except GhostlyError Element)
    (getField : Element → String → Except GhostlyError Element)
    (rand : Nat → Fin lettersAndDigits.length) (selector : String)
    (contents : List (List (String × String))) :
    Except GhostlyError (Element × List (Element × String)) := do
  let r := randomToken rand
  let form ← getForm selector
  let sends ← fillFields (getField form) r contents.flatten
  .ok (form, sends)

/-- The keystrokes sent by `fillFields` are exactly the original values with
every occurrence of the placeholder replaced by the one token `r`. -/
theorem fillFields_sends (getE : String → Except GhostlyError Element)
    (r : String) (l : List (String × String)) (sends : List (Element × String))
    (h : fillFields getE r l = .ok sends) :
    sends.map Prod.snd = l.map (fun kv => pyReplace kv.2 "<random>" r) := by
  induction l generalizing sends with
  | nil =>
      simp only [fillFields] at h
      cases h
      rfl
  | cons kv rest ih =>
      obtain ⟨k, v⟩ := kv
      simp only [fillFields, bind, Except.bind] at h
      cases hE : getE k with
      | error err => rw [hE] at h; cases h
      | ok el =>
          rw [hE] at h
          cases hT : fillFields getE r rest with
          | error err => rw [hT] at h; cases h
          | ok tail =>
              rw [hT] at h
              cases h
              simpa using ih tail hT

/-- C7: whenever `fill` succeeds, one single token was generated for the
whole call — twelve characters, each drawn from the letters-and-digits
alphabet — and every field value was sent with every occurrence of the
`<random>` placeholder replaced by that same token. -/
theorem c7_fill_shared_token (getForm : String → Except GhostlyError Element)
    (getField : Element → String → Except GhostlyError Element)
    (rand : Nat → Fin lettersAndDigits.length) (selector : String)
    (contents : List (List (String × String))) (form : Element)
    (sends : List (Element × String))
    (h : fill getForm getField rand selector contents = .ok (form, sends)) :
    (randomToken rand).length = 12 ∧
    (∀ ch ∈ (randomToken rand).data, ch ∈ lettersAndDigits) ∧
    sends.map Prod.snd =
      contents.flatten.map
        (fun kv => pyReplace kv.2 "<random>" (randomToken rand)) := by
  refine ⟨by simp [randomToken, String.length], ?_, ?_⟩
  · intro ch hch
    simp only [randomToken, List.mem_map, List.mem_range] at hch
    obtain ⟨i, _, rfl⟩ := hch
    exact List.get_mem lettersAndDigits (rand i).1 (rand i).2
  · simp only [fill, bind, Except.bind] at h
    cases hF : getForm selector with
    | error err => rw [hF] at h; cases h
    | ok f =>
        rw [hF] at h
        dsimp only at h
        cases hS : fillFields (getField f) (randomToken rand) contents.flatten with
        | error err => rw [hS] at h; cases h
        | ok sends2 =>
            rw [hS] at h
            cases h
            exact fillFields_sends _ _ _ _ hS

/-- Concrete form element for the C7 witness. -/
def formEl : Element :=
  ⟨"form", fun _ => none, ""⟩

/-- Witness for C7: two fields both containing `<random>` receive the same
12-character token (all draws picking index 0, i.e. the letter a). -/
theorem c7_fill_shared_token_witness :
    (randomToken (fun _ => ⟨0, by decide⟩)).length = 12 ∧
    (∀ ch ∈ (randomToken (fun _ => ⟨0, by decide⟩)).data,
      ch ∈ lettersAndDigits) ∧
    [(abEl, pyReplace "x<random>" "<random>"
        (randomToken (fun _ => ⟨0, by decide⟩))),
     (abEl, pyReplace "<random>" "<random>"
        (randomToken (fun _ => ⟨0, by decide⟩)))].map Prod.snd =
      [[("a", "x<random>")], [("b", "<random>")]].flatten.map
        (fun kv => pyReplace kv.2 "<random>"
          (randomToken (fun _ => ⟨0, by decide⟩))) :=
  c7_fill_shared_token (fun _ => .ok formEl) (fun _ _ => .ok abEl)
    (fun _ => ⟨0, by decide⟩) "form"
    [[("a", "x<random>")], [("b", "<random>")]] formEl
    [(abEl, pyReplace "x<random>" "<random>"
        (randomToken (fun _ => ⟨0, by decide⟩))),
     (abEl, pyReplace "<random>" "<random>"
        (randomToken (fun _ => ⟨0, by decide⟩)))]
    rfl

/-- Python string interpolation of an optional attribute value, as
`"{}".format` renders it: `None` prints as "None". -/
def pyStr : Option String → String
  | none => "None"
  | some s => s

/-- Outcome of an assertion method: the trace of `self.wait` calls (in
seconds) performed before and during it, and the raised error, if any. -/
structure AssertOutcome where
  sleeps : List ℚ
  result : Except GhostlyError Unit

/-- Driver-level state read by `assert_title` / `assert_url`. -/
structure DriverState where
  title : String
  current_url : String

/-- `Ghostly.assert_text` (ghostly.py:264-272): `self.wait(1)`, resolve the
selector (default `'body'`), fail with `GhostlyTestFailed` unless `text`
occurs in the element's text. -/
def assert_text (c : Clock) (page : Nat → Provider) (text : String)
    (selector : String := "body") : AssertOutcome :=
  ⟨[1],
    match get_element c page selector 10 with
    | .error err => .error err
    | .ok element =>
      if pyInStr text element.text then .ok ()
      else .error (.ghostlyTestFailed (text ++ " not in " ++ element.text))⟩

/-- `Ghostly.assert_element` (ghostly.py:274-281): `self.wait(1)`, resolve
the selector, and raise `GhostlyTestFailed` if the resolved handle is
falsy. -/
def assert_element (c : Clock) (page : Nat → Provider) (selector : String) :
    AssertOutcome :=
  ⟨[1],
    match get_element c page selector 10 with
    | .error err => .error err
    | .ok element =>
      if !element.pyTruthy then
        .error (.ghostlyTestFailed ("no element matched " ++ selector))
      else .ok ()⟩

/-- `Ghostly.assert_value` (ghostly.py:283-294): `self.wait(1)`, resolve the
selector, fail with `GhostlyTestFailed` unless the element's value
attribute equals `value` (an absent attribute, Python `None`, never equals
a string). -/
def assert_value (c : Clock) (page : Nat → Provider) (selector value : String) :
    AssertOutcome :=
  ⟨[1],
    match get_element c page selector 10 with
    | .error err => .error err
    | .ok element =>
      if element.get_attribute "value" ≠ some value then
        .error (.ghostlyTestFailed
          (pyStr (element.get_attribute "value") ++ " != " ++ value))
      else .ok ()⟩

/-- `Ghostly.assert_title` (ghostly.py:296-299). -/
def assert_title (d : DriverState) (value : String) : AssertOutcome :=
  ⟨[1],
    if d.title ≠ value then
      .error (.ghostlyTestFailed ("title is " ++ d.title ++ " not " ++ value))
    else .ok ()⟩

/-- `Ghostly.assert_url` (ghostly.py:301-304). -/
def assert_url (d : DriverState) (url : String) : AssertOutcome :=
  ⟨[1],
    if d.current_url ≠ url then
      .error (.ghostlyTestFailed ("url is " ++ d.current_url ++ " not " ++ url))
    else .ok ()⟩

/-- `Ghostly.navigate` (ghostly.py:253-262): anything other than "forward"
or "back" raises `AttributeError` before the driver is touched; the two
accepted strings invoke the like-named driver operation.  The driver is
modelled by the history of navigation operations invoked on it. -/
def navigate (navigation : String) (history : List String) :
    List String × Option GhostlyError :=
  if ¬ (navigation = "forward" ∨ navigation = "back") then
    (history,
      some (.attributeError "An invalid option was given to the navigation command"))
  else
    (history ++ [navigation], none)

/-- C8: every one of the five assertions performs exactly the fixed
1-second wait (no other delay, not configurable); each then compares actual
against expected and on mismatch raises `GhostlyTestFailed` carrying both
values in its message; in particular `assert_value` succeeds exactly when
the resolved element's value attribute equals the expected string. -/
theorem c8_assertions (c : Clock) (page : Nat → Provider)
    (text selector value url : String) (d : DriverState) (e : Element) :
    ((assert_text c page text selector).sleeps = [1] ∧
      (assert_element c page selector).sleeps = [1] ∧
      (assert_value c page selector value).sleeps = [1] ∧
      (assert_title d value).sleeps = [1] ∧
      (assert_url d url).sleeps = [1]) ∧
    (get_element c page selector 10 = .ok e →
      (((assert_value c page selector value).result = .ok () ↔
          e.get_attribute "value" = some value) ∧
        (e.get_attribute "value" ≠ some value →
          (assert_value c page selector value).result =
            .error (.ghostlyTestFailed
              (pyStr (e.get_attribute "value") ++ " != " ++ value))) ∧
        ((assert_text c page text selector).result = .ok () ↔
          pyInStr text e.text = true) ∧
        (pyInStr text e.text = false →
          (assert_text c page text selector).result =
            .error (.ghostlyTestFailed (text ++ " not in " ++ e.text))))) ∧
    (((assert_title d value).result = .ok () ↔ d.title = value) ∧
      (d.title ≠ value → (assert_title d value).result =
        .error (.ghostlyTestFailed
          ("title is " ++ d.title ++ " not " ++ value)))) ∧
    (((assert_url d url).result = .ok () ↔ d.current_url = url) ∧
      (d.current_url ≠ url → (assert_url d url).result =
        .error (.ghostlyTestFailed
          ("url is " ++ d.current_url ++ " not " ++ url)))) := by
  refine ⟨⟨rfl, rfl, rfl, rfl, rfl⟩, fun hok => ?_, ⟨?_, ?_⟩, ⟨?_, ?_⟩⟩
  · refine ⟨?_, fun hne => ?_, ?_, fun hni => ?_⟩
    · simp only [assert_value, hok]
      by_cases hv : e.get_attribute "value" = some value <;> simp [hv]
    · simp only [assert_value, hok]
      simp [hne]
    · simp only [assert_text, hok]
      by_cases ht : pyInStr text e.text <;> simp [ht]
    · simp only [assert_text, hok]
      simp [hni]
  · simp only [assert_title]
    by_cases hv : d.title = value <;> simp [hv]
  · intro hne
    simp [assert_title, hne]
  · simp only [assert_url]
    by_cases hv : d.current_url = url <;> simp [hv]
  · intro hne
    simp [assert_url, hne]

/-- Concrete element and page for the assertion witnesses: a single input
whose value attribute is "Hello World". -/
def hwEl : Element :=
  ⟨"input", fun a => if a = "value" then some "Hello World" else none,
    "Hello World"⟩

/-- Page whose tag lookup always finds `hwEl`. -/
def hwPage : Nat → Provider :=
  fun _ => { emptyProvider with find_elements_by_tag_name := fun _ => [hwEl] }

/-- The concrete resolution used by the assertion witnesses. -/
theorem hwPage_resolves :
    get_element exClock hwPage "input" 10 = .ok hwEl :=
  getElementLoop_ok exClock _ _ "input" 1 1 hwEl le_rfl (by simp [exClock])
    (fun m h1 h2 => absurd (lt_of_le_of_lt h1 h2) (lt_irrefl 1)) rfl

/-- Witness for C8: `assert_value("input", "Hello World")` against an
element whose value attribute is "Hello World" succeeds, after the fixed
1-second wait. -/
theorem c8_assertions_witness :
    (assert_value exClock hwPage "input" "Hello World").result = .ok () ∧
      (assert_value exClock hwPage "input" "Hello World").sleeps = [1] :=
  ⟨((c8_assertions exClock hwPage "x" "input" "Hello World" "u"
        ⟨"t", "u"⟩ hwEl).2.1 hwPage_resolves).1.mpr rfl,
    (c8_assertions exClock hwPage "x" "input" "Hello World" "u"
        ⟨"t", "u"⟩ hwEl).1.2.2.1⟩

/-- C9: `navigate` rejects every string other than "forward" and "back"
with `AttributeError`, leaving the driver untouched (history unchanged);
the two accepted strings invoke exactly the corresponding driver
operation. -/
theorem c9_navigate (navigation : String) (history : List String) :
    (navigation ≠ "forward" → navigation ≠ "back" →
      navigate navigation history =
        (history,
          some (.attributeError
            "An invalid option was given to the navigation command"))) ∧
    navigate "forward" history = (history ++ ["forward"], none) ∧
    navigate "back" history = (history ++ ["back"], none) := by
  refine ⟨fun h1 h2 => ?_, ?_, ?_⟩
  · simp [navigate, h1, h2]
  · simp [navigate]
  · simp [navigate]

/-- Witness for C9: `navigate("sideways")` fails with `AttributeError` and
no driver interaction. -/
theorem c9_navigate_witness :
    navigate "sideways" [] =
      ([], some (.attributeError
        "An invalid option was given to the navigation command")) :=
  (c9_navigate "sideways" []).1 (by decide) (by decide)

/-- The polling resolver can only fail with `NoSuchElementException`
carrying the not-found message. -/
theorem getElementLoop_error_shape (c : Clock) (attempt : Nat → List Element)
    (deadline : Nat) (selector : String) (n : Nat) (err : GhostlyError)
    (h : getElementLoop c attempt deadline selector n = .error err) :
    err = .noSuchElement (notFoundMsg selector) := by
  unfold getElementLoop at h
  split at h
  · cases hfn : firstNonHidden (attempt n) with
    | some e => rw [hfn] at h; cases h
    | none =>
        rw [hfn] at h
        exact getElementLoop_error_shape c attempt deadline selector (n + 1)
          err h
  · cases h
    rfl
termination_by deadline - c.time n
decreasing_by
  have := c.strictMono n
  omega

/-- C10: the `if not element` branch of `assert_element` is dead code: the
resolver returns a (always-truthy) element handle or raises its own
not-found error, so `assert_element`'s outcome is exactly the resolver's
outcome, and the `GhostlyTestFailed("no element matched …")` error can
never be raised. -/
theorem c10_assert_element_dead_branch (c : Clock) (page : Nat → Provider)
    (selector : String) :
    (assert_element c page selector).result =
        (get_element c page selector 10).map (fun _ => ()) ∧
      ∀ msg, (assert_element c page selector).result ≠
        .error (.ghostlyTestFailed msg) := by
  have hmap : (assert_element c page selector).result =
      (get_element c page selector 10).map (fun _ => ()) := by
    simp only [assert_element]
    cases get_element c page selector 10 with
    | error err => rfl
    | ok e => simp [Element.pyTruthy, Except.map]
  refine ⟨hmap, fun msg hcontra => ?_⟩
  rw [hmap] at hcontra
  cases hg : get_element c page selector 10 with
  | error err =>
      rw [hg] at hcontra
      simp only [Except.map] at hcontra
      cases hcontra
      exact absurd (getElementLoop_error_shape c _ _ selector 1 _ hg)
        (by intro h; cases h)
  | ok e =>
      rw [hg] at hcontra
      simp [Except.map] at hcontra

/-- Witness for C10: on a page where the selector resolves, `assert_element`
succeeds, and it cannot fail with the assertion-failed error. -/
theorem c10_assert_element_dead_branch_witness :
    (assert_element exClock hwPage "input").result =
        (get_element exClock hwPage "input" 10).map (fun _ => ()) ∧
      (assert_element exClock hwPage "input").result ≠
        .error (.ghostlyTestFailed ("no element matched " ++ "input")) :=
  ⟨(c10_assert_element_dead_branch exClock hwPage "input").1,
    (c10_assert_element_dead_branch exClock hwPage "input").2 _⟩
